import Mathlib

/-!
Verification development for the aistore-be repository: a shallow embedding
of the sync scheduler (`src/durable-objects/store-do.ts`), the search
engine (`src/services/search.ts`), the Upstash index/cache helper
(`src/services/upstash.ts`) and the Airtable normalizer
(`src/services/airtable.ts`), with theorems settling the specification
claims about them.

JavaScript dynamic values are embedded as the inductive `JsonVal`;
`undefined` is `Option.none`; JS truthiness is the `JsonVal.truthy`
function.  JS numbers that the claims touch are integer-valued, so they
are embedded as `Int` (scores, which carry fractional constants, as `ℚ`).
-/

/-- A JavaScript/JSON value, as stored in Airtable record fields and
passed through the normalizer and the search scorer. -/
inductive JsonVal where
  | str (s : String)
  | num (n : Int)
  | boolean (b : Bool)
  | arr (elems : List JsonVal)
  | obj (fields : List (String × JsonVal))
  | null

/-- JS truthiness of a defined value: empty strings, 0, `false` and `null`
are falsy; any array or object is truthy. -/
def JsonVal.truthy : JsonVal → Bool
  | .str s => !s.isEmpty
  | .num n => n != 0
  | .boolean b => b
  | .arr _ => true
  | .obj _ => true
  | .null => false

/-- Truthiness of a possibly-undefined value (`undefined` is falsy). -/
def jsTruthy : Option JsonVal → Bool
  | some v => v.truthy
  | none => false

/-- JS `a || b`: returns `a` when truthy, otherwise returns `b` as-is. -/
def jsOr (a b : Option JsonVal) : Option JsonVal :=
  if jsTruthy a then a else b

/-- Property lookup `fields[k]` on a JS object; absent keys give
`undefined`. -/
def jget (fields : List (String × JsonVal)) (k : String) : Option JsonVal :=
  (fields.find? (fun kv => kv.1 == k)).map (fun kv => kv.2)

/-- The parsed, normalized query intent (see `helpers/ai-chat.ts`
`parseUserIntent` / `parseUserIntentHybrid`): optional fields probed
defensively by the scorer and the cache-key builder.  `locationCity`
embeds `intent.location?.city`. -/
structure Intent where
  budget_max : Option Int := none
  category : Option String := none
  size : Option String := none
  color : Option String := none
  tags : Option (List String) := none
  locationCity : Option String := none
deriving DecidableEq, Repr

/-- Truthiness of an optional string field (JS: `undefined` and `""` are
falsy). -/
def strTruthy : Option String → Bool
  | some s => !s.isEmpty
  | none => false

/-- JS `s.toLowerCase()` on the ASCII strings the system compares. -/
def jsToLower (s : String) : String :=
  String.mk (s.toList.map Char.toLower)

/-- JS `s.trim()`: strips leading and trailing whitespace. -/
def jsTrim (s : String) : String :=
  String.mk
    (((s.toList.dropWhile Char.isWhitespace).reverse.dropWhile
        Char.isWhitespace).reverse)

/-- A row of the `stores` table as selected by `SearchService.search`
(src/services/search.ts lines 80-91): the fields the claims consult. -/
structure Store where
  id : String
  name : String
  plan : String
  city : Option String
  status : String
deriving DecidableEq, Repr

/-- `StoreProductPointer` (src/services/upstash.ts lines 4-10). -/
structure StoreProductPointer where
  storeId : String
  productId : String
  price : Int
  currency : String
  lastSyncAt : Nat
deriving DecidableEq, Repr

/-- Embeds the D1 tenant-directory query of `SearchService.search`
(src/services/search.ts line 80-91): `select ... from stores where
status = "active"`.  No other column is consulted. -/
def selectActiveStores (allStores : List Store) : List Store :=
  allStores.filter (fun s => s.status == "active")

/-- Embeds `UpstashHelper.getCategoryIndex` / `getTagIndex`
(src/services/upstash.ts lines 61-83): the underlying redis read either
yields the pointer list or errors; the internal catch turns any error
into `[]`. -/
def getIndexPointers (redisResult : Except Unit (List StoreProductPointer)) :
    List StoreProductPointer :=
  match redisResult with
  | .ok ps => ps
  | .error _ => []

/-- Insertion-ordered deduplication, embedding the JS `Set<string>`
insertion order followed by `Array.from`. -/
def dedupFirst (l : List String) : List String :=
  l.foldl (fun acc x => if acc.contains x then acc else acc ++ [x]) []

/-- Embeds `SearchService.getCandidateStoresFromIndexes`
(src/services/search.ts lines 210-236).  `catRedis` is the redis outcome
of the category-index probe and `tagRedis` of each tag-index probe; both
probes swallow their own errors and deliver `[]` (see
`getIndexPointers`), so the surrounding catch (which also returns `[]`)
yields the same value on any error. -/
def getCandidateStoresFromIndexes
    (catRedis : Except Unit (List StoreProductPointer))
    (tagRedis : String → Except Unit (List StoreProductPointer))
    (intent : Intent) : List String :=
  let catIds :=
    if strTruthy intent.category then
      (getIndexPointers catRedis).map (fun p => p.storeId)
    else []
  let tagIds :=
    match intent.tags with
    | some ts => (ts.map (fun t => (getIndexPointers (tagRedis t)).map
        (fun p => p.storeId))).flatten
    | none => []
  dedupFirst (catIds ++ tagIds)

/-- Embeds step 4 of `SearchService.search` (src/services/search.ts lines
93-99): `candidateStoreIds` stays `null` (`none`) unless indexes are
enabled and the intent carries a truthy category or a tags array; when
the probe runs, its result array — possibly empty — is stored
(`some`). -/
def candidateStoreIdsStep (useIndexes : Bool)
    (catRedis : Except Unit (List StoreProductPointer))
    (tagRedis : String → Except Unit (List StoreProductPointer))
    (intent : Intent) : Option (List String) :=
  if useIndexes && (strTruthy intent.category || intent.tags.isSome) then
    some (getCandidateStoresFromIndexes catRedis tagRedis intent)
  else
    none

/-- Embeds step 5 of `SearchService.search` (src/services/search.ts lines
101-104): `candidateStoreIds ? activeStores.filter(...) : activeStores`.
In JS an array — even an empty one — is truthy, so `some ids` always
takes the filter branch. -/
def storesToQuery (activeStores : List Store)
    (candidateStoreIds : Option (List String)) : List Store :=
  match candidateStoreIds with
  | some ids => activeStores.filter (fun s => ids.contains s.id)
  | none => activeStores

/-- A concrete active, non-free tenant used as a probe input. -/
def storeOne : Store :=
  { id := "store-1", name := "Tenant One", plan := "pro",
    city := some "Lagos", status := "active" }

/-- A concrete free-tier, active tenant used as a probe input. -/
def freeStore : Store :=
  { id := "store-free", name := "Free Tenant", plan := "free",
    city := some "Abuja", status := "active" }

/-! ## Search scoring (`SearchService.calculateRankScore`) -/

/-- Bool substring test: JS `s.includes(sub)`. -/
def charsContain : List Char → List Char → Bool
  | sub, [] => sub.isEmpty
  | sub, c :: rest => sub.isPrefixOf (c :: rest) || charsContain sub rest

/-- JS `s.includes(sub)` on strings. -/
def strIncludes (s sub : String) : Bool :=
  charsContain sub.toList s.toList

/-- The fields of a fetched product that `calculateRankScore` consults:
`product.category` and `product.pricing.amount`. -/
structure ScoringProduct where
  category : Option String
  amount : Int
deriving DecidableEq, Repr

/-- The category branch of `calculateRankScore` (src/services/search.ts
lines 351-354): `intent.category` truthy and
`product.category?.toLowerCase().includes(intent.category.toLowerCase())`. -/
def categoryBoostApplies (product : ScoringProduct) (intent : Intent) : Bool :=
  match intent.category, product.category with
  | some ic, some pc => !ic.isEmpty && strIncludes (jsToLower pc) (jsToLower ic)
  | _, _ => false

/-- The budget branch of `calculateRankScore` (src/services/search.ts
lines 356-363): skipped when `intent.budget_max` is undefined or falsy
(0); otherwise +0.2 within budget, −0.3 over budget. -/
def budgetAdjustment (product : ScoringProduct) (intent : Intent) : ℚ :=
  match intent.budget_max with
  | some b => if b ≠ 0 then (if product.amount ≤ b then 2/10 else -(3/10)) else 0
  | none => 0

/-- The location branch of `calculateRankScore` (src/services/search.ts
lines 365-368): `intent.location?.city` truthy and
`store.city?.toLowerCase() === intent.location.city.toLowerCase()`. -/
def locationBoostApplies (store : Store) (intent : Intent) : Bool :=
  match intent.locationCity, store.city with
  | some ic, some sc => !ic.isEmpty && (jsToLower sc == jsToLower ic)
  | _, _ => false

/-- Embeds `SearchService.calculateRankScore` (src/services/search.ts
lines 348-375) over exact rationals: base 0.5, the category, budget,
location and plan adjustments applied in source order, then
`Math.min(score, 1.0)`. -/
def calculateRankScore (product : ScoringProduct) (store : Store)
    (intent : Intent) : ℚ :=
  let base : ℚ := 1/2
  let s1 := if categoryBoostApplies product intent then base + 2/10 else base
  let s2 := s1 + budgetAdjustment product intent
  let s3 := if locationBoostApplies store intent then s2 + 1/10 else s2
  let s4 := if store.plan == "premium" then s3 + 5/100 else s3
  let s5 := if store.plan == "pro" then s4 + 2/100 else s4
  min s5 1

/-! ## Sync scheduler (`StoreDO`, src/durable-objects/store-do.ts) -/

/-- The persisted scheduler metadata of `StoreState` that the failure /
success bookkeeping mutates (src/durable-objects/store-do.ts lines
35-40). -/
structure SyncConfig where
  errorState : Option String := none
  syncRetryCount : Nat := 0
  lastSyncError : Option String := none
  lastSyncAt : Option Nat := none
deriving DecidableEq, Repr

/-- The in-memory concurrency guard of `StoreDO` (fields `isSyncing` and
`syncStartTime`). -/
structure GuardState where
  isSyncing : Bool
  syncStartTime : Option Nat
deriving DecidableEq, Repr

/-- `StoreDO.SYNC_TIMEOUT_MS`: the 10-minute stuck-run grace period. -/
def SYNC_TIMEOUT_MS : Nat := 10 * 60 * 1000

/-- Embeds `StoreDO.shouldSkipSync` (src/durable-objects/store-do.ts
lines 229-242) together with its mutation of the guard: returns whether
the trigger is skipped and the guard state that is left behind.  The
stuck check requires a truthy `syncStartTime` (JS `this.syncStartTime &&
...`) and a strict `now - startTime > SYNC_TIMEOUT_MS`; Nat subtraction
truncates at 0 exactly as the JS comparison rejects negative elapsed
times. -/
def shouldSkipSync (g : GuardState) (now : Nat) : Bool × GuardState :=
  if g.isSyncing then
    let timedOut := match g.syncStartTime with
      | some t => t != 0 && decide (SYNC_TIMEOUT_MS < now - t)
      | none => false
    if timedOut then (false, { isSyncing := false, syncStartTime := none })
    else (true, g)
  else (false, g)

/-- Retry budget of `StoreDO.handleSyncFailure`. -/
def maxRetries : Nat := 5

/-- Embeds `StoreDO.handleSyncFailure` (src/durable-objects/store-do.ts
lines 313-332): records the error, increments the retry counter, and —
while the counter is within the budget — schedules a retry alarm
`min(1000 * 2^count, 30000)` ms ahead.  The returned option is the
backoff delay set by this handler (`none` when the budget is
exhausted). -/
def handleSyncFailure (cfg : SyncConfig) (msg : String) :
    SyncConfig × Option Nat :=
  let count := cfg.syncRetryCount + 1
  let cfg1 := { cfg with errorState := some msg, lastSyncError := some msg,
                         syncRetryCount := count }
  (cfg1, if count ≤ maxRetries then some (min (1000 * 2 ^ count) 30000) else none)

/-- Embeds `StoreDO.finalizeSyncState` (src/durable-objects/store-do.ts
lines 305-311): records the success time, clears the error state and the
retry counter. -/
def finalizeSyncState (cfg : SyncConfig) (now : Nat) : SyncConfig :=
  { cfg with lastSyncAt := some now, errorState := none,
             syncRetryCount := 0, lastSyncError := none }

/-- Embeds `StoreDO.ensureReschedule` (src/durable-objects/store-do.ts
lines 343-357): only when the retry counter is zero (JS
`!config.syncRetryCount || config.syncRetryCount === 0`) does it look up
the plan and overwrite the alarm with the plan-based interval; otherwise
the alarm slot is untouched. -/
def ensureReschedule (cfg : SyncConfig) (planIntervalSec : Nat)
    (alarm : Option Nat) : Option Nat :=
  if cfg.syncRetryCount == 0 then some (planIntervalSec * 1000) else alarm

/-- Outcome of one fallible step inside a sync run. -/
inductive SyncStepOutcome where
  | ok
  | fail (msg : String)
deriving DecidableEq, Repr

/-- The outcomes of the external effects of one `StoreDO.alarm` run, in
the order the run performs them (src/durable-objects/store-do.ts lines
178-216): interval resolution, credential acquisition, settings sync,
source fetch, the Canonical (D1) batch write, the Snapshot (KV) rebuild
`buildKVIndexes`, and the GlobalIndex rebuild `updateGlobalIndexes`. -/
structure SyncRunOutcomes where
  resolveInterval : SyncStepOutcome
  credential : SyncStepOutcome
  settings : SyncStepOutcome
  fetch : SyncStepOutcome
  canonicalWrite : SyncStepOutcome
  snapshotWrite : SyncStepOutcome
  indexWrite : SyncStepOutcome
deriving DecidableEq, Repr

/-- The first error that escapes into `alarm`'s catch block.  The body of
`alarm` wraps steps 2-9 in one try; `buildKVIndexes` (the Snapshot
rebuild) has no try/catch of its own, so its failure escapes, while
`updateGlobalIndexes` catches internally and never throws
(src/durable-objects/store-do.ts lines 139-142, 200-223). -/
def firstEscapedError (o : SyncRunOutcomes) : Option String :=
  match o.resolveInterval with
  | .fail m => some m
  | .ok =>
  match o.credential with
  | .fail m => some m
  | .ok =>
  match o.settings with
  | .fail m => some m
  | .ok =>
  match o.fetch with
  | .fail m => some m
  | .ok =>
  match o.canonicalWrite with
  | .fail m => some m
  | .ok =>
  match o.snapshotWrite with
  | .fail m => some m
  | .ok => none

/-- Result of one `StoreDO.alarm` invocation: the persisted config left
behind, the alarm delay (ms) left scheduled by this invocation — later
`setAlarm` calls overwrite earlier ones, `none` means no alarm was set —
whether the run logged "Sync complete successfully", and the GlobalIndex
error that was swallowed (logged only), if any. -/
structure AlarmOutput where
  config : SyncConfig
  alarm : Option Nat
  reportedSuccess : Bool
  swallowedIndexError : Option String
deriving DecidableEq, Repr

/-- Embeds the body of `StoreDO.alarm` past the concurrency guard
(src/durable-objects/store-do.ts lines 178-223).  On a clean critical
path: `finalizeSyncState`, `scheduleNextAlarm (syncInterval)`, then the
finally-block `ensureReschedule` (retry counter now 0) overwrites the
alarm with the plan interval; a failure of `updateGlobalIndexes` is
swallowed at its own boundary.  On an escaped error:
`handleSyncFailure`, then `ensureReschedule` leaves its alarm alone
(counter is now positive). -/
def runAlarmBody (cfg : SyncConfig) (o : SyncRunOutcomes)
    (syncIntervalSec planIntervalSec now : Nat) : AlarmOutput :=
  match firstEscapedError o with
  | none =>
      let cfg1 := finalizeSyncState cfg now
      let alarm1 := some (syncIntervalSec * 1000)
      let alarm2 := ensureReschedule cfg1 planIntervalSec alarm1
      { config := cfg1, alarm := alarm2, reportedSuccess := true,
        swallowedIndexError :=
          match o.indexWrite with
          | .fail m => some m
          | .ok => none }
  | some msg =>
      let r := handleSyncFailure cfg msg
      let alarm2 := ensureReschedule r.1 planIntervalSec r.2
      { config := r.1, alarm := alarm2, reportedSuccess := false,
        swallowedIndexError := none }

/-- Retry state after `n` consecutive failures starting from a zero
retry counter, paired with the backoff delay the `n`-th failure
scheduled. -/
def failureIter : Nat → SyncConfig × Option Nat
  | 0 => ({}, none)
  | n + 1 => handleSyncFailure (failureIter n).1 "sync error"

/-! ## Cache fingerprint (`UpstashHelper.generateCacheKey`) -/

/-- JSON escaping of one character (quote, backslash and the common
control characters; the inputs the system serializes are plain ASCII). -/
def jsonEscapeChar (c : Char) : String :=
  if c = '"' then "\\\""
  else if c = '\\' then "\\\\"
  else if c = '\n' then "\\n"
  else if c = '\t' then "\\t"
  else if c = '\r' then "\\r"
  else String.singleton c

/-- JSON escaping of a string body. -/
def jsonEscape (s : String) : String :=
  String.join (s.toList.map jsonEscapeChar)

mutual

/-- `JSON.stringify` on the embedded values (object properties keep
insertion order, as JS does). -/
def jsonStringify : JsonVal → String
  | .str s => "\"" ++ jsonEscape s ++ "\""
  | .num n => toString n
  | .boolean b => if b then "true" else "false"
  | .null => "null"
  | .arr l => "[" ++ jsonStringifyElems l ++ "]"
  | .obj fs => "\x7b" ++ jsonStringifyProps fs ++ "\x7d"

/-- Comma-joined stringification of array elements. -/
def jsonStringifyElems : List JsonVal → String
  | [] => ""
  | [v] => jsonStringify v
  | v :: w :: rest => jsonStringify v ++ "," ++ jsonStringifyElems (w :: rest)

/-- Comma-joined stringification of object properties. -/
def jsonStringifyProps : List (String × JsonVal) → String
  | [] => ""
  | [(k, v)] => "\"" ++ jsonEscape k ++ "\":" ++ jsonStringify v
  | (k, v) :: kv :: rest =>
      "\"" ++ jsonEscape k ++ "\":" ++ jsonStringify v ++ "," ++
        jsonStringifyProps (kv :: rest)

end

/-- The base64 alphabet used by `btoa`. -/
def base64Chars : List Char :=
  "ABCDEFGHIJKLMNOPQRSTUVWXYZabcdefghijklmnopqrstuvwxyz0123456789+/".toList

/-- The base64 digit for a 6-bit group. -/
def b64Char (n : Nat) : Char := base64Chars.getD n 'A'

/-- base64 encoding of a byte sequence, with `=` padding, as `btoa`
produces. -/
def btoaBytes : List Nat → List Char
  | [] => []
  | [a] => [b64Char (a / 4), b64Char (a % 4 * 16), '=', '=']
  | [a, b] => [b64Char (a / 4), b64Char (a % 4 * 16 + b / 16),
               b64Char (b % 16 * 4), '=']
  | a :: b :: c :: rest =>
      b64Char (a / 4) :: b64Char (a % 4 * 16 + b / 16) ::
      b64Char (b % 16 * 4 + c / 64) :: b64Char (c % 64) :: btoaBytes rest

/-- JS `btoa` on the (ASCII) strings the cache-key builder feeds it. -/
def btoa (s : String) : String :=
  String.mk (btoaBytes (s.toList.map Char.toNat))

/-- The `.replace(/[^a-zA-Z0-9]/g, "")` step of the cache-key builder. -/
def stripNonAlnum (s : String) : String :=
  String.mk (s.toList.filter Char.isAlphanum)

/-- The intent object as JSON, properties in the insertion order of
`parseUserIntent` (budget_max, category, size, color) followed by the
AI-merged fields (tags, location). -/
def intentToJsonVal (i : Intent) : JsonVal :=
  .obj (List.filterMap id
    [ i.budget_max.map (fun b => ("budget_max", JsonVal.num b)),
      i.category.map (fun c => ("category", JsonVal.str c)),
      i.size.map (fun s => ("size", JsonVal.str s)),
      i.color.map (fun c => ("color", JsonVal.str c)),
      i.tags.map (fun ts => ("tags", JsonVal.arr (ts.map JsonVal.str))),
      i.locationCity.map
        (fun c => ("location", JsonVal.obj [("city", JsonVal.str c)])) ])

/-- Embeds `UpstashHelper.generateCacheKey` (src/services/upstash.ts
lines 131-138): `cache:search:` followed by the alphanumeric residue of
`btoa(JSON.stringify({ intent, normalizedQuery }))`.  The key data
includes the normalized raw query text, not just the intent. -/
def generateCacheKey (intent : Intent) (normalizedQuery : String) : String :=
  let keyData := JsonVal.obj
    [ ("intent", intentToJsonVal intent),
      ("normalizedQuery", JsonVal.str normalizedQuery) ]
  "cache:search:" ++ stripNonAlnum (btoa (jsonStringify keyData))

/-- The cache key `SearchService.search` computes for a raw query
(src/services/search.ts lines 45-49): the raw text is lowercased and
trimmed, then passed to `generateCacheKey` alongside the intent. -/
def searchCacheKey (queryText : String) (intent : Intent) : String :=
  generateCacheKey intent (jsTrim (jsToLower queryText))

/-! ## Result cache (`UpstashHelper` search-cache operations) -/

/-- One ranked search result, as cached: the fields the cache claims
consult. -/
structure RankedResult where
  rank_score : ℚ
  productId : String
  storeId : String
deriving DecidableEq, Repr

/-- `SearchCacheEntry` (src/services/upstash.ts lines 12-16). -/
structure SearchCacheEntry where
  results : List RankedResult
  intent : Intent
  createdAt : Nat
deriving DecidableEq, Repr

/-- The redis keyspace holding search-cache entries, keyed by
fingerprint. -/
abbrev CacheState := List (String × SearchCacheEntry)

/-- Embeds `UpstashHelper.setSearchCache` (src/services/upstash.ts lines
104-106): `setex` overwrites the entry at the key. -/
def setSearchCache (cache : CacheState) (key : String)
    (entry : SearchCacheEntry) : CacheState :=
  (key, entry) :: cache.filter (fun kv => kv.1 != key)

/-- Embeds `UpstashHelper.getSearchCache` (src/services/upstash.ts lines
86-102): a present entry is served only within its 300 s TTL. -/
def getSearchCache (cache : CacheState) (key : String) (now : Nat) :
    Option SearchCacheEntry :=
  match cache.find? (fun kv => kv.1 == key) with
  | some kv => if now - kv.2.createdAt < 300000 then some kv.2 else none
  | none => none

/-- Embeds step 10 of `SearchService.search` (src/services/search.ts
lines 166-174): the ranked, truncated result set is written to the cache
only when caching is enabled and `sortedResults.length > 0`. -/
def cacheResultsStep (useCache : Bool) (sortedResults : List RankedResult)
    (key : String) (intent : Intent) (now : Nat) (cache : CacheState) :
    CacheState :=
  if useCache && decide (0 < sortedResults.length) then
    setSearchCache cache key
      { results := sortedResults, intent := intent, createdAt := now }
  else cache

/-! ## Normalizer (`AirtableService.normalizeProductForD1`) -/

/-- `AirtableRecord` (src/services/airtable.ts lines 7-11). -/
structure AirtableRecord where
  id : String
  fields : List (String × JsonVal)
  createdTime : String

/-- `StoreSettings` (src/durable-objects/store-do.ts lines 12-21). -/
structure StoreSettings where
  delivery_price : Int
  delivery_regions : List String
  pickup_available : Bool
  returnable : Bool
  return_window_days : Int
  exchange_supported : Bool
  warranty : String
  authenticity_claimed : Bool
deriving DecidableEq, Repr

mutual

/-- JS `.toString()` on the embedded values (arrays join with commas,
objects print `[object Object]`). -/
def jsToStringVal : JsonVal → String
  | .str s => s
  | .num n => toString n
  | .boolean b => if b then "true" else "false"
  | .null => ""
  | .arr l => jsToStringElems l
  | .obj _ => "[object Object]"

/-- Array `toString` element joining. -/
def jsToStringElems : List JsonVal → String
  | [] => ""
  | [v] => jsToStringVal v
  | v :: w :: rest => jsToStringVal v ++ "," ++ jsToStringElems (w :: rest)

end

/-- JS `parseFloat` on the (integer-valued) prices the records carry:
numbers pass through; numeric strings parse; anything non-numeric (which
JS would turn into `NaN`) is collapsed to 0. -/
def jsParseFloat : JsonVal → Int
  | .num n => n
  | .str s => (s.trim.toInt?).getD 0
  | _ => 0

/-- JS `fields["Available Units"] > 0`: `undefined` compares false,
numbers compare directly, numeric strings are coerced. -/
def jsGtZero : Option JsonVal → Bool
  | some (.num n) => decide (0 < n)
  | some (.str s) => decide (0 < (s.trim.toInt?).getD 0)
  | _ => false

/-- JS strict `=== true`. -/
def isStrictTrue : Option JsonVal → Bool
  | some (.boolean b) => b
  | _ => false

/-- JS strict `=== "Yes"`. -/
def isStrictYes : Option JsonVal → Bool
  | some (.str s) => s == "Yes"
  | _ => false

/-- The array the image chain `fields["Product Image"] || fields.Images
|| fields.images || []` maps over (a non-array truthy value would make
the JS `.map` throw; none of the claims reaches that case). -/
def imagesValue (fields : List (String × JsonVal)) : List JsonVal :=
  match (jsOr (jget fields "Product Image")
      (jsOr (jget fields "Images")
        (jsOr (jget fields "images") (some (.arr []))))).getD .null with
  | .arr l => l
  | _ => []

/-- The `alt` property of one image entry: `img.filename ||
fields["Product Name"] || "Product Image"`. -/
def imageAlt (fields : List (String × JsonVal)) (img : JsonVal) : JsonVal :=
  let filename := match img with
    | .obj fs => jget fs "filename"
    | _ => none
  (jsOr filename
    (jsOr (jget fields "Product Name") (some (.str "Product Image")))).getD .null

/-- One mapped image entry `{ url: typeof img === "string" ? img :
img.url, alt: ... }`; a property whose value is `undefined` is omitted
by `JSON.stringify`. -/
def imageEntry (fields : List (String × JsonVal)) (img : JsonVal) : JsonVal :=
  let url : Option JsonVal := match img with
    | .str s => some (.str s)
    | .obj fs => jget fs "url"
    | _ => none
  match url with
  | some u => .obj [("url", u), ("alt", imageAlt fields img)]
  | none => .obj [("alt", imageAlt fields img)]

/-- `fields["Available Units"]?.toString() || "unknown"` (optional
chaining short-circuits `null`/`undefined`). -/
def quantityRangeOf (fields : List (String × JsonVal)) : String :=
  match jget fields "Available Units" with
  | some .null => "unknown"
  | none => "unknown"
  | some v =>
      let s := jsToStringVal v
      if s.isEmpty then "unknown" else s

/-- `D1ProductRecord` (src/services/airtable.ts lines 13-48).  Fields the
source leaves as raw (`any`-typed) values stay `JsonVal`; JSON columns
are the serialized strings; `syncedAt` is the wall-clock instant the
normalizer stamped. -/
structure D1ProductRecord where
  id : String
  storeId : String
  airtableRecordId : String
  name : JsonVal
  brand : Option JsonVal
  model : Option JsonVal
  category : Option JsonVal
  tags : String
  descriptionShort : JsonVal
  descriptionLong : JsonVal
  images : String
  currency : String
  amount : Int
  originalAmount : Option Int
  discountPercentage : Int
  inStock : Bool
  stockStatus : JsonVal
  quantityRange : String
  variantsTracked : Bool
  variants : String
  deliveryAvailable : Bool
  pickupAvailable : Bool
  deliveryPrice : Int
  deliveryRegions : String
  deliveryMinHours : JsonVal
  deliveryMaxHours : JsonVal
  returnable : Bool
  returnWindowDays : Int
  exchangeSupported : Bool
  condition : JsonVal
  warranty : JsonVal
  authenticityClaimed : Bool
  source : String
  syncedAt : Nat

/-- Embeds `AirtableService.normalizeProductForD1`
(src/services/airtable.ts lines 161-210).  `now` embeds the `const now =
new Date()` the function captures, which only the `syncedAt` field
uses. -/
def normalizeProductForD1 (record : AirtableRecord) (storeId : String)
    (settings : Option StoreSettings) (now : Nat) : D1ProductRecord :=
  let fields := record.fields
  { id := storeId ++ ":" ++ record.id
  , storeId := storeId
  , airtableRecordId := record.id
  , name := (jsOr (jget fields "Product Name") (jsOr (jget fields "Name")
      (jsOr (jget fields "name") (jsOr (jget fields "Title")
        (jsOr (jget fields "Item")
          (some (.str "Unknown Product"))))))).getD .null
  , brand := jsOr (jget fields "Brand") (jget fields "brand")
  , model := jsOr (jget fields "Model") (jget fields "model")
  , category := jsOr (jget fields "Product Category")
      (jsOr (jget fields "Category") (jget fields "category"))
  , tags := jsonStringify ((jsOr (jget fields "Tags")
      (jsOr (jget fields "tags") (some (.arr [])))).getD .null)
  , descriptionShort := (jsOr (jget fields "Product Description")
      (jsOr (jget fields "ShortDescription")
        (jsOr (jget fields "short_description")
          (jsOr (jget fields "Description") (some (.str "")))))).getD .null
  , descriptionLong := (jsOr (jget fields "Product Description")
      (jsOr (jget fields "LongDescription")
        (jsOr (jget fields "long_description")
          (jsOr (jget fields "Description") (some (.str "")))))).getD .null
  , images := jsonStringify (.arr ((imagesValue fields).map (imageEntry fields)))
  , currency := "NGN"
  , amount := jsParseFloat ((jsOr (jget fields "Current Price")
      (jsOr (jget fields "Price")
        (jsOr (jget fields "amount") (some (.num 0))))).getD .null)
  , originalAmount :=
      if jsTruthy (jget fields "OriginalPrice") then
        some (jsParseFloat ((jget fields "OriginalPrice").getD .null))
      else none
  , discountPercentage :=
      if jsTruthy (jget fields "Discount") then
        jsParseFloat ((jget fields "Discount").getD .null)
      else 0
  , inStock := jsGtZero (jget fields "Available Units") ||
      (isStrictTrue (jget fields "In_stock") ||
        isStrictYes (jget fields "In_stock") ||
        isStrictTrue (jget fields "in_stock"))
  , stockStatus := (jsOr (jget fields "StockStatus")
      (some (.str "available"))).getD .null
  , quantityRange := quantityRangeOf fields
  , variantsTracked := jsTruthy (jget fields "Variants")
  , variants := jsonStringify ((jsOr (jget fields "Variants")
      (some (.arr []))).getD .null)
  , deliveryAvailable := match settings with
      | some s => decide (0 < s.delivery_regions.length)
      | none => true
  , pickupAvailable := match settings with
      | some s => s.pickup_available
      | none => true
  , deliveryPrice := match settings with
      | some s => s.delivery_price
      | none => 0
  , deliveryRegions := jsonStringify (.arr
      ((match settings with
        | some s => s.delivery_regions
        | none => []).map JsonVal.str))
  , deliveryMinHours := (jsOr (jget fields "DeliveryMin")
      (some (.num 4))).getD .null
  , deliveryMaxHours := (jsOr (jget fields "DeliveryMax")
      (some (.num 24))).getD .null
  , returnable := match settings with
      | some s => s.returnable
      | none => true
  , returnWindowDays := match settings with
      | some s => s.return_window_days
      | none => 7
  , exchangeSupported := match settings with
      | some s => s.exchange_supported
      | none => true
  , condition := (jsOr (jget fields "Condition") (some (.str "new"))).getD .null
  , warranty := (jsOr (match settings with
        | some s => some (.str s.warranty)
        | none => none)
      (jsOr (jget fields "Warranty") (some (.str "none")))).getD .null
  , authenticityClaimed := match settings with
      | some s => s.authenticity_claimed
      | none => true
  , source := "airtable"
  , syncedAt := now }

/-- The normalizer output with its wall-clock stamp erased, for
comparing runs performed at different instants. -/
def stripSyncedAt (p : D1ProductRecord) : D1ProductRecord :=
  { p with syncedAt := 0 }

/-- A concrete raw record used as a probe input. -/
def recOne : AirtableRecord :=
  { id := "recA1", fields := [("Name", .str "Sneaker"), ("Price", .num 25000)],
    createdTime := "2024-01-01T00:00:00.000Z" }

/-! ## Theorems -/

/-- Claim C1 (code evaluated at the failing input): with one active
tenant and an intent carrying a category, an index probe that errors —
and equally one that finds no pointers — makes
`getCandidateStoresFromIndexes` deliver `[]`, the step stores it as
`candidateStoreIds = some []` (a JS array is truthy even when empty), and
the store filter then leaves an **empty** candidate set instead of
falling back to the full active tenant set. -/
theorem c1_index_miss_empties_candidate_set :
    candidateStoreIdsStep true (.error ()) (fun _ => .ok [])
        { category := some "shoes" } = some []
  ∧ candidateStoreIdsStep true (.ok []) (fun _ => .ok [])
        { category := some "shoes" } = some []
  ∧ selectActiveStores [storeOne] = [storeOne]
  ∧ storesToQuery (selectActiveStores [storeOne]) (some []) = [] :=
  ⟨rfl, rfl, rfl, rfl⟩

/-- Concrete run outcomes where only the Snapshot (KV) rebuild fails. -/
def snapshotFailOutcomes : SyncRunOutcomes :=
  { resolveInterval := .ok, credential := .ok, settings := .ok, fetch := .ok,
    canonicalWrite := .ok, snapshotWrite := .fail "kv put failed",
    indexWrite := .ok }

/-- Claim C2 counterexample: a run whose credential acquisition, fetch
and Canonical write succeed but whose Snapshot (KV) rebuild throws does
NOT report success — the error escapes `buildKVIndexes` (which has no
catch of its own), the failure handler records the error and increments
the retry counter. -/
theorem c2_snapshot_failure_fails_run :
    (runAlarmBody {} snapshotFailOutcomes 1800 1800 0).reportedSuccess = false
  ∧ (runAlarmBody {} snapshotFailOutcomes 1800 1800 0).config.errorState =
      some "kv put failed"
  ∧ (runAlarmBody {} snapshotFailOutcomes 1800 1800 0).config.syncRetryCount = 1 :=
  ⟨rfl, rfl, rfl⟩

/-- Claim C2 (amended): when interval resolution, credential acquisition,
settings sync, source fetch, the Canonical write and the Snapshot (KV)
rebuild all succeed, a failure while rebuilding the GlobalIndex is caught
and swallowed at its own boundary and the run still reports success:
error state cleared, retry counter reset to zero, next run scheduled. -/
theorem c2_index_failure_swallowed (cfg : SyncConfig) (o : SyncRunOutcomes)
    (i p now : Nat)
    (h1 : o.resolveInterval = .ok) (h2 : o.credential = .ok)
    (h3 : o.settings = .ok) (h4 : o.fetch = .ok)
    (h5 : o.canonicalWrite = .ok) (h6 : o.snapshotWrite = .ok) :
    (runAlarmBody cfg o i p now).reportedSuccess = true
  ∧ (runAlarmBody cfg o i p now).config.errorState = none
  ∧ (runAlarmBody cfg o i p now).config.syncRetryCount = 0
  ∧ (runAlarmBody cfg o i p now).alarm = some (p * 1000)
  ∧ (runAlarmBody cfg o i p now).swallowedIndexError =
      (match o.indexWrite with | .fail m => some m | .ok => none) := by
  simp [runAlarmBody, firstEscapedError, h1, h2, h3, h4, h5, h6,
        finalizeSyncState, ensureReschedule]

/-- Concrete run outcomes where only the GlobalIndex rebuild fails. -/
def indexFailOutcomes : SyncRunOutcomes :=
  { resolveInterval := .ok, credential := .ok, settings := .ok, fetch := .ok,
    canonicalWrite := .ok, snapshotWrite := .ok,
    indexWrite := .fail "redis down" }

/-- Claim C2 witness: the amended theorem at a concrete run whose
GlobalIndex rebuild fails. -/
theorem c2_index_failure_swallowed_witness :
    (runAlarmBody {} indexFailOutcomes 60 120 42).reportedSuccess = true
  ∧ (runAlarmBody {} indexFailOutcomes 60 120 42).config.errorState = none
  ∧ (runAlarmBody {} indexFailOutcomes 60 120 42).config.syncRetryCount = 0
  ∧ (runAlarmBody {} indexFailOutcomes 60 120 42).alarm = some (120 * 1000)
  ∧ (runAlarmBody {} indexFailOutcomes 60 120 42).swallowedIndexError =
      (match indexFailOutcomes.indexWrite with
       | .fail m => some m
       | .ok => none) :=
  c2_index_failure_swallowed {} indexFailOutcomes 60 120 42 rfl rfl rfl rfl rfl rfl

/-- Claim C3 counterexample: an active free-tier tenant IS among the
candidate tenants a query considers (here with no index narrowing), so a
tenant whose subscription tier is free can appear in the candidate
set. -/
theorem c3_free_tier_store_included :
    freeStore.plan = "free"
  ∧ freeStore ∈ storesToQuery (selectActiveStores [freeStore]) none :=
  ⟨rfl, by decide⟩

/-- Claim C3 (amended): the tenant directory a query fetches is exactly
the stores whose status is "active"; the subscription plan column is not
consulted, so free-tier tenants are not excluded. -/
theorem c3_active_filter_ignores_plan (l : List Store) (s : Store) :
    s ∈ selectActiveStores l ↔ s ∈ l ∧ s.status = "active" := by
  simp [selectActiveStores, List.mem_filter]

/-- The normalized intent both C4 probe queries parse to. -/
def sneakersIntent : Intent :=
  { budget_max := some 30000, category := some "sneakers" }

/-- Claim C4 counterexample: two queries with different raw text but
identical normalized intent get different cache fingerprints — the key
data includes the lowercased, trimmed raw text — so they do not hit the
same result-cache entry. -/
theorem c4_text_changes_fingerprint :
    searchCacheKey "sneakers under 30k" sneakersIntent ≠
      searchCacheKey "sneakers below 30000" sneakersIntent := by
  decide

/-- Claim C4 (amended): the fingerprint is derived from the normalized
intent together with the lowercased, trimmed raw query text; two queries
with identical intent whose raw texts normalize (lowercase, trim) to the
same string compute the same fingerprint, and so hit the same
result-cache entry.  (Differing normalized texts do not in general give
different fingerprints: the alphanumeric strip of the base64 output is
not injective.) -/
theorem c4_key_from_intent_and_normalized_text (q1 q2 : String) (i : Intent)
    (h : jsTrim (jsToLower q1) = jsTrim (jsToLower q2)) :
    searchCacheKey q1 i = searchCacheKey q2 i := by
  unfold searchCacheKey
  rw [h]

/-- Claim C4 witness: two raw texts differing only in case and
surrounding whitespace share a fingerprint. -/
theorem c4_key_from_intent_and_normalized_text_witness :
    jsTrim (jsToLower "  Sneakers UNDER 30k") =
      jsTrim (jsToLower "sneakers under 30k")
  ∧ searchCacheKey "  Sneakers UNDER 30k" sneakersIntent =
      searchCacheKey "sneakers under 30k" sneakersIntent :=
  ⟨by decide,
   c4_key_from_intent_and_normalized_text _ _ sneakersIntent (by decide)⟩

/-- Claim C5: starting from a zero retry counter, the n-th consecutive
failure (n = 1..5) schedules the retry alarm min(1000·2^n, 30000) ms
ahead; the concrete delay sequence is [2000, 4000, 8000, 16000, 30000],
monotonically non-decreasing; and a successful run resets the counter to
zero. -/
theorem c5_backoff_sequence (n : Nat) (h1 : 1 ≤ n) (h2 : n ≤ 5)
    (cfg : SyncConfig) (now : Nat) :
    (failureIter n).2 = some (min (1000 * 2 ^ n) 30000)
  ∧ (failureIter n).1.syncRetryCount = n
  ∧ (List.range 5).map (fun k => (failureIter (k + 1)).2) =
      [some 2000, some 4000, some 8000, some 16000, some 30000]
  ∧ List.Chain' (fun a b => a ≤ b) [2000, 4000, 8000, 16000, 30000]
  ∧ (finalizeSyncState cfg now).syncRetryCount = 0 := by
  refine ⟨?_, ?_, by decide, by norm_num [List.chain'_cons], rfl⟩
  · interval_cases n <;> decide
  · interval_cases n <;> decide

/-- Claim C5 witness: the backoff theorem at the fifth consecutive
failure. -/
theorem c5_backoff_sequence_witness :
    (1 ≤ 5 ∧ 5 ≤ 5) ∧
    ((failureIter 5).2 = some (min (1000 * 2 ^ 5) 30000)
  ∧ (failureIter 5).1.syncRetryCount = 5
  ∧ (List.range 5).map (fun k => (failureIter (k + 1)).2) =
      [some 2000, some 4000, some 8000, some 16000, some 30000]
  ∧ List.Chain' (fun a b => a ≤ b) [2000, 4000, 8000, 16000, 30000]
  ∧ (finalizeSyncState {} 7).syncRetryCount = 0) :=
  ⟨⟨by decide, by decide⟩, c5_backoff_sequence 5 (by decide) (by decide) {} 7⟩

/-- Claim C6: a timer firing while a run is in flight is dropped (guard
untouched) while the run is within the 10-minute stuck-run timeout; once
the timeout is exceeded the guard is force-reset and the trigger
proceeds; and a timer firing with no run in flight always proceeds. -/
theorem c6_concurrency_guard (g : GuardState) (now t : Nat)
    (hrun : g.isSyncing = true) (hstart : g.syncStartTime = some t)
    (ht : t ≠ 0) :
    (now - t ≤ SYNC_TIMEOUT_MS → shouldSkipSync g now = (true, g))
  ∧ (SYNC_TIMEOUT_MS < now - t →
      shouldSkipSync g now =
        (false, { isSyncing := false, syncStartTime := none }))
  ∧ (∀ g2 : GuardState, g2.isSyncing = false →
      ∀ m : Nat, shouldSkipSync g2 m = (false, g2)) := by
  refine ⟨?_, ?_, ?_⟩
  · intro hle
    simp [shouldSkipSync, hrun, hstart, ht, Nat.not_lt.mpr hle]
  · intro hlt
    simp [shouldSkipSync, hrun, hstart, ht, hlt]
  · intro g2 h2 m
    simp [shouldSkipSync, h2]

/-- Claim C6 witness: the guard theorem for a run started at millisecond
1000. -/
theorem c6_concurrency_guard_witness :
    (⟨true, some 1000⟩ : GuardState).isSyncing = true
  ∧ (⟨true, some 1000⟩ : GuardState).syncStartTime = some 1000
  ∧ (1000 ≠ 0)
  ∧ ((2000 - 1000 ≤ SYNC_TIMEOUT_MS →
        shouldSkipSync ⟨true, some 1000⟩ 2000 = (true, ⟨true, some 1000⟩))
    ∧ (SYNC_TIMEOUT_MS < 2000 - 1000 →
        shouldSkipSync ⟨true, some 1000⟩ 2000 =
          (false, { isSyncing := false, syncStartTime := none }))
    ∧ (∀ g2 : GuardState, g2.isSyncing = false →
        ∀ m : Nat, shouldSkipSync g2 m = (false, g2))) :=
  ⟨rfl, rfl, by decide,
   c6_concurrency_guard ⟨true, some 1000⟩ 2000 1000 rfl rfl (by decide)⟩

/-- Claim C7: a failure that raises the consecutive-failure counter above
the maximum of 5 leaves no new alarm: the backoff branch is skipped, and
the plan-based reschedule — which fires exactly when the retry counter is
zero — is skipped too; the tenant is left in errorState. -/
theorem c7_no_alarm_after_budget_exhausted (cfg : SyncConfig)
    (o : SyncRunOutcomes) (i p now : Nat) (msg : String)
    (hfail : firstEscapedError o = some msg)
    (hcount : maxRetries ≤ cfg.syncRetryCount) :
    (runAlarmBody cfg o i p now).alarm = none
  ∧ (runAlarmBody cfg o i p now).config.errorState = some msg
  ∧ (runAlarmBody cfg o i p now).config.syncRetryCount =
      cfg.syncRetryCount + 1
  ∧ (∀ c : SyncConfig, c.syncRetryCount ≠ 0 →
      ∀ a : Option Nat, ensureReschedule c p a = a)
  ∧ (∀ c : SyncConfig, c.syncRetryCount = 0 →
      ensureReschedule c p none = some (p * 1000)) := by
  have hc : ¬ (cfg.syncRetryCount + 1 ≤ maxRetries) := by
    simp [maxRetries] at hcount ⊢
    omega
  refine ⟨?_, ?_, ?_, ?_, ?_⟩
  · simp [runAlarmBody, hfail, handleSyncFailure, ensureReschedule, hc]
  · simp [runAlarmBody, hfail, handleSyncFailure]
  · simp [runAlarmBody, hfail, handleSyncFailure]
  · intro c hcnt a
    simp [ensureReschedule, hcnt]
  · intro c hcnt
    simp [ensureReschedule, hcnt]

/-- Concrete outcomes where the Canonical write fails. -/
def canonicalFailOutcomes : SyncRunOutcomes :=
  { resolveInterval := .ok, credential := .ok, settings := .ok, fetch := .ok,
    canonicalWrite := .fail "d1 batch failed", snapshotWrite := .ok,
    indexWrite := .ok }

/-- Claim C7 witness: the sixth consecutive failure schedules nothing. -/
theorem c7_no_alarm_after_budget_exhausted_witness :
    firstEscapedError canonicalFailOutcomes = some "d1 batch failed"
  ∧ maxRetries ≤ ({ syncRetryCount := 5 } : SyncConfig).syncRetryCount
  ∧ ((runAlarmBody { syncRetryCount := 5 } canonicalFailOutcomes 60 120 0).alarm = none
    ∧ (runAlarmBody { syncRetryCount := 5 } canonicalFailOutcomes 60 120 0).config.errorState =
        some "d1 batch failed"
    ∧ (runAlarmBody { syncRetryCount := 5 } canonicalFailOutcomes 60 120 0).config.syncRetryCount =
        ({ syncRetryCount := 5 } : SyncConfig).syncRetryCount + 1
    ∧ (∀ c : SyncConfig, c.syncRetryCount ≠ 0 →
        ∀ a : Option Nat, ensureReschedule c 120 a = a)
    ∧ (∀ c : SyncConfig, c.syncRetryCount = 0 →
        ensureReschedule c 120 none = some (120 * 1000))) :=
  ⟨rfl, by decide,
   c7_no_alarm_after_budget_exhausted { syncRetryCount := 5 }
     canonicalFailOutcomes 60 120 0 "d1 batch failed" rfl (by decide)⟩

/-- Claim C8 counterexample: the same raw record and the same settings,
normalized at two different instants, yield outputs that are not
byte-identical — the `syncedAt` field records each run's wall clock. -/
theorem c8_output_differs_across_times :
    normalizeProductForD1 recOne "s1" none 0 ≠
      normalizeProductForD1 recOne "s1" none 1 := by
  intro h
  exact Nat.zero_ne_one (congrArg D1ProductRecord.syncedAt h)

/-- Claim C8 (amended): the normalizer is a deterministic function of the
raw record and the settings in every field except `syncedAt`, which
records the run's wall-clock instant: two runs on the same inputs agree
byte-for-byte once the `syncedAt` stamp is erased (and hence runs at the
same instant are byte-identical). -/
theorem c8_deterministic_modulo_syncedAt (record : AirtableRecord)
    (storeId : String) (settings : Option StoreSettings) (t1 t2 : Nat) :
    stripSyncedAt (normalizeProductForD1 record storeId settings t1) =
      stripSyncedAt (normalizeProductForD1 record storeId settings t2) :=
  rfl

/-- Claim C9: the score is a pure function of product, store and intent;
with a matching category, price 25000, no location match and no plan
boost, a 30000 budget scores exactly 0.9 and a 20000 budget exactly
0.4. -/
theorem c9_score_values (p : ScoringProduct) (st : Store) (i1 i2 : Intent)
    (hc1 : categoryBoostApplies p i1 = true)
    (hc2 : categoryBoostApplies p i2 = true)
    (hamt : p.amount = 25000)
    (hb1 : i1.budget_max = some 30000)
    (hb2 : i2.budget_max = some 20000)
    (hl1 : locationBoostApplies st i1 = false)
    (hl2 : locationBoostApplies st i2 = false)
    (hpp : st.plan ≠ "premium") (hpr : st.plan ≠ "pro") :
    calculateRankScore p st i1 = 9/10 ∧ calculateRankScore p st i2 = 4/10 := by
  have hpp2 : (st.plan == "premium") = false := beq_eq_false_iff_ne.mpr hpp
  have hpr2 : (st.plan == "pro") = false := beq_eq_false_iff_ne.mpr hpr
  constructor
  · simp [calculateRankScore, budgetAdjustment, hc1, hb1, hamt, hl1, hpp2, hpr2]
    norm_num [min_def]
  · simp [calculateRankScore, budgetAdjustment, hc2, hb2, hamt, hl2, hpp2, hpr2]
    norm_num [min_def]

/-- Claim C9 witness: the scoring theorem at the spec's concrete
product. -/
theorem c9_score_values_witness :
    (categoryBoostApplies ⟨some "sneakers", 25000⟩
        { budget_max := some 30000, category := some "sneakers" } = true)
  ∧ (categoryBoostApplies ⟨some "sneakers", 25000⟩
        { budget_max := some 20000, category := some "sneakers" } = true)
  ∧ (calculateRankScore ⟨some "sneakers", 25000⟩
        ⟨"s1", "Shop", "basic", none, "active"⟩
        { budget_max := some 30000, category := some "sneakers" } = 9/10
    ∧ calculateRankScore ⟨some "sneakers", 25000⟩
        ⟨"s1", "Shop", "basic", none, "active"⟩
        { budget_max := some 20000, category := some "sneakers" } = 4/10) :=
  ⟨by decide, by decide,
   c9_score_values ⟨some "sneakers", 25000⟩
     ⟨"s1", "Shop", "basic", none, "active"⟩
     { budget_max := some 30000, category := some "sneakers" }
     { budget_max := some 20000, category := some "sneakers" }
     (by decide) (by decide) rfl rfl rfl (by decide) (by decide)
     (by decide) (by decide)⟩

/-- Claim C10: the cache-write step stores the ranked result set only
when it is non-empty — an empty result set leaves the cache unchanged; a
cache whose entries all hold non-empty result sets keeps that invariant
across the step; and an entry served from such a cache never holds an
empty result set. -/
theorem c10_empty_results_not_cached (useCache : Bool)
    (results : List RankedResult) (key : String) (i : Intent)
    (now : Nat) (cache : CacheState)
    (hinv : ∀ e ∈ cache, e.2.results ≠ []) :
    (results = [] → cacheResultsStep useCache results key i now cache = cache)
  ∧ (∀ e ∈ cacheResultsStep useCache results key i now cache,
      e.2.results ≠ [])
  ∧ (∀ k2 t e2,
      getSearchCache (cacheResultsStep useCache results key i now cache) k2 t =
        some e2 → e2.results ≠ []) := by
  have hmem : ∀ e ∈ cacheResultsStep useCache results key i now cache,
      e.2.results ≠ [] := by
    intro e he
    unfold cacheResultsStep at he
    by_cases hcond : (useCache && decide (0 < results.length)) = true
    · rw [if_pos hcond] at he
      unfold setSearchCache at he
      rcases List.mem_cons.mp he with h | h
      · have hlen : 0 < results.length :=
          of_decide_eq_true ((Bool.and_eq_true _ _).mp hcond).2
        rw [h]
        exact List.length_pos.mp hlen
      · exact hinv e (List.mem_of_mem_filter h)
    · rw [if_neg hcond] at he
      exact hinv e he
  refine ⟨?_, hmem, ?_⟩
  · intro h
    subst h
    simp [cacheResultsStep]
  · intro k2 t e2 hget
    unfold getSearchCache at hget
    split at hget
    next kv hfind =>
      split at hget
      · cases hget
        exact hmem kv (List.mem_of_find?_eq_some hfind)
      · cases hget
    next => cases hget

/-- Claim C10 witness: the cache theorem at an empty cache and an empty
result set. -/
theorem c10_empty_results_not_cached_witness :
    (∀ e ∈ ([] : CacheState), e.2.results ≠ [])
  ∧ (([] : List RankedResult) = [] →
      cacheResultsStep true [] "k" {} 0 [] = [])
  ∧ (∀ e ∈ cacheResultsStep true ([] : List RankedResult) "k" {} 0 [],
      e.2.results ≠ [])
  ∧ (∀ k2 t e2,
      getSearchCache (cacheResultsStep true ([] : List RankedResult) "k" {} 0 []) k2 t =
        some e2 → e2.results ≠ []) := by
  refine ⟨by simp, ?_⟩
  have h := c10_empty_results_not_cached true [] "k" {} 0 [] (by simp)
  exact h
